import Mathlib

/-!
Verification of the hero-state-machine core of the Solarus engine
(hero states, pickable treasures, suspension timers, the simulated clock)
against its natural-language specification.

Each C++ function relevant to a claim is embedded as a Lean definition
translated from the corresponding source file; machine integers
(`uint32_t`) are modelled as `Nat` with explicit reduction modulo `2^32`
where the C++ arithmetic wraps.
-/

namespace Solarus

/-- The value `2^32`, the modulus of C++ `uint32_t` arithmetic. -/
def U32MOD : Nat := 4294967296

/-- C++ `uint32_t` addition (wraps modulo `2^32`). -/
def uadd (a b : Nat) : Nat := (a + b) % U32MOD

/-- C++ `uint32_t` subtraction (wraps modulo `2^32`); both operands are
assumed already reduced below `2^32` by the state invariants. -/
def usub (a b : Nat) : Nat := (a + U32MOD - b % U32MOD) % U32MOD

/-! ## `System` (src/lowlevel/System.cpp, src/include/lowlevel/System.h)

`System::ticks` is a `uint32_t` simulated clock starting at 0;
`System::update()` performs `ticks += timestep` with
`static const uint32_t timestep = 10`. -/

namespace System

/-- Embedding of `System::timestep`: the constant simulated-time quantum in milliseconds. -/
def timestep : Nat := 10

/-- Embedding of `System::update()` on the `ticks` counter: `ticks += timestep`
(*uint32_t* arithmetic, so modulo `2^32`).  The `Sound::update()` call in
the same function does not touch the clock. -/
def update (ticks : Nat) : Nat := (ticks + timestep) % U32MOD

/-- The value of `System::now()` after `n` calls to `System::update()`
from program start (`ticks = 0`). -/
def nowAfter : Nat → Nat
  | 0 => 0
  | n + 1 => update (nowAfter n)

end System

/-! ## Suspension of absolute-date timers

The base recording of the suspension date lives in `MapEntity.cpp` /
`Movement.cpp`, which are not part of the sources considered here; only
the shifting code of the derived classes is
(`Pickable::set_suspended`, `PixelMovement::set_suspended`). -/

/-- Timer-related fields of `Pickable`
(src/entities/Pickable.cpp, constructor at lines 44-64). -/
structure PickableTimers where
  canBePicked : Bool
  willDisappear : Bool
  allowPickDate : Nat
  blinkDate : Nat
  disappearDate : Nat
  suspended : Bool
  whenSuspended : Nat
  deriving Repr, DecidableEq

/-- Modelled from the spec: the base `MapEntity::set_suspended`
(`MapEntity.cpp` is not among the sources) records the date of
suspension, as required by the suspension invariant of the spec and as
the in-source `Transition::set_suspended` (src/Transition.cpp, lines
151-161) does: when the entity becomes suspended, `when_suspended`
is set to `System::now()`; resuming leaves it untouched. -/
def mapEntitySetSuspended (now : Nat) (suspended : Bool)
    (p : PickableTimers) : PickableTimers :=
  if suspended then
    { p with suspended := true, whenSuspended := now % U32MOD }
  else
    { p with suspended := false }

/-- Embedding of `Pickable::set_suspended` (src/entities/Pickable.cpp, lines 386-413):
after delegating to the base class, on resume it shifts
`allow_pick_date` (when the item cannot be picked yet) and, when the
item will disappear, `blink_date` and `disappear_date`, each by
`now + (date - when_suspended)` in `uint32_t` arithmetic, provided
`when_suspended != 0`. -/
def Pickable.set_suspended (now : Nat) (suspended : Bool)
    (p : PickableTimers) : PickableTimers :=
  let p := mapEntitySetSuspended now suspended p
  if suspended then p
  else
    let p :=
      if !p.canBePicked && p.whenSuspended != 0 then
        { p with allowPickDate := uadd (now % U32MOD) (usub p.allowPickDate p.whenSuspended) }
      else p
    if p.willDisappear && p.whenSuspended != 0 then
      { p with
        blinkDate := uadd (now % U32MOD) (usub p.blinkDate p.whenSuspended),
        disappearDate := uadd (now % U32MOD) (usub p.disappearDate p.whenSuspended) }
    else p

/-- Timer-related fields of `PixelMovement`
(src/movements/PixelMovement.cpp, constructor at lines 32-38). -/
structure PixelMovementTimers where
  nextMoveDate : Nat
  suspended : Bool
  whenSuspended : Nat
  deriving Repr, DecidableEq

/-- Modelled from the spec: the base `Movement::set_suspended`
(`Movement.cpp` is not among the sources) records the suspension date
exactly like `MapEntity::set_suspended` above. -/
def movementSetSuspended (now : Nat) (suspended : Bool)
    (m : PixelMovementTimers) : PixelMovementTimers :=
  if suspended then
    { m with suspended := true, whenSuspended := now % U32MOD }
  else
    { m with suspended := false }

/-- Embedding of `PixelMovement::set_suspended` (src/movements/PixelMovement.cpp,
lines 193-200): after delegating to `Movement::set_suspended`, on resume
with `when_suspended != 0` it performs
`next_move_date += System::now() - get_when_suspended()` in `uint32_t`
arithmetic. -/
def PixelMovement.set_suspended (now : Nat) (suspended : Bool)
    (m : PixelMovementTimers) : PixelMovementTimers :=
  let m := movementSetSuspended now suspended m
  if !suspended && m.whenSuspended != 0 then
    { m with nextMoveDate := uadd m.nextMoveDate (usub (now % U32MOD) m.whenSuspended) }
  else m

/-! ## Carried items: reference counting and the lifting state

`Hero::LiftingState` (src/hero/LiftingState.cpp) owns a `CarriedItem*`
through manual reference counting.  `RefCountable`, `CarriedItem` and
`MapEntities` are not among the sources; their effect on the reference
count is modelled from the spec (§3, §5, §8). -/

/-- Embedding of `CarriedItem::Behavior`: the three-valued policy a successor state
declares for a previously carried item. -/
inductive CarriedItemBehavior where
  | BEHAVIOR_THROW
  | BEHAVIOR_DESTROY
  | BEHAVIOR_KEEP
  deriving Repr, DecidableEq

/-- The observable situation of one carried object `O`:
its reference count, whether the current hero state still holds a
pointer to it, and whether it is registered in the world entity list. -/
structure CarriedItemWorld where
  refcount : Nat
  stateHolds : Bool
  inWorldList : Bool
  deriving Repr, DecidableEq

/-- Modelled from the spec: `RefCountable::ref` (`RefCountable.h/.cpp`
are not among the sources) increments the reference count by one. -/
def refCountableRef (c : Nat) : Nat := c + 1

/-- Modelled from the spec: `RefCountable::unref` decrements the
reference count by one (and destroys the object when it reaches 0). -/
def refCountableUnref (c : Nat) : Nat := c - 1

/-- Embedding of `Hero::LiftingState::LiftingState` (src/hero/LiftingState.cpp,
lines 34-40): stores the lifted item and takes a reference on it
(`RefCountable::ref(lifted_item)`). -/
def LiftingState.construct (w : CarriedItemWorld) : CarriedItemWorld :=
  { w with stateHolds := true, refcount := refCountableRef w.refcount }

/-- Embedding of `Hero::LiftingState::throw_item` (src/hero/LiftingState.cpp, lines
151-156): throws the item and adds it to the world entity list, then
drops the state's pointer without calling `unref` — the state's
reference is transferred away.  The composite effect on the count of
`CarriedItem::throw_item` and `MapEntities::add_entity` (neither among
the sources) is modelled from the spec's THROW scenario (§8): the item
becomes a free entity of the world list and the world ends as its
single holder, so the thrower's pre-lift handle is released and the
count drops by one. -/
def LiftingState.throw_item (w : CarriedItemWorld) : CarriedItemWorld :=
  { w with
    inWorldList := true,
    stateHolds := false,
    refcount := refCountableUnref w.refcount }

/-- Embedding of `Hero::LiftingState::destroy_lifted_item` (src/hero/LiftingState.cpp,
lines 161-165): `RefCountable::unref(lifted_item); lifted_item = nullptr`. -/
def LiftingState.destroy_lifted_item (w : CarriedItemWorld) : CarriedItemWorld :=
  { w with stateHolds := false, refcount := refCountableUnref w.refcount }

/-- Embedding of `Hero::LiftingState::stop` (src/hero/LiftingState.cpp, lines 73-102):
when a lifted item is still held, dispatch on the successor's
`get_previous_carried_item_behavior()`.  In the KEEP case the code runs
`Debug::check_assertion(lifted_item->get_refcount() > 1, "Invalid
carried item refcount")` and then unrefs; a failed `check_assertion`
aborts the program, modelled as `Except.error`. -/
def LiftingState.stop (behavior : CarriedItemBehavior)
    (w : CarriedItemWorld) : Except String CarriedItemWorld :=
  if !w.stateHolds then .ok w
  else
    match behavior with
    | .BEHAVIOR_THROW => .ok (LiftingState.throw_item w)
    | .BEHAVIOR_DESTROY => .ok (LiftingState.destroy_lifted_item w)
    | .BEHAVIOR_KEEP =>
        if w.refcount > 1 then
          .ok { w with
                stateHolds := false,
                refcount := refCountableUnref w.refcount }
        else .error "Invalid carried item refcount"

/-- Embedding of `Hero::JumpingState::stop` (src/hero/JumpingState.cpp, lines
102-136), restricted to its carried-item bookkeeping: identical policy
dispatch, with the same `check_assertion(carried_item->get_refcount() >
1)` in the KEEP case; THROW throws the item and adds it to the world
entity list with the state's reference transferred (same modelling of
the missing `CarriedItem::throw_item`/`add_entity` as for
`LiftingState.throw_item`). -/
def JumpingState.stop (behavior : CarriedItemBehavior)
    (w : CarriedItemWorld) : Except String CarriedItemWorld :=
  if !w.stateHolds then .ok w
  else
    match behavior with
    | .BEHAVIOR_THROW =>
        .ok { w with
              inWorldList := true,
              stateHolds := false,
              refcount := refCountableUnref w.refcount }
    | .BEHAVIOR_DESTROY =>
        .ok { w with stateHolds := false, refcount := refCountableUnref w.refcount }
    | .BEHAVIOR_KEEP =>
        if w.refcount > 1 then
          .ok { w with stateHolds := false, refcount := refCountableUnref w.refcount }
        else .error "Invalid carried item refcount"

/-! ## `Hero::HookshotState::finish_movement` (src/hero/HookshotState.cpp) -/

/-- Embedding of `Layer` (the engine's three elevation bands). -/
inductive Layer where
  | LAYER_LOW
  | LAYER_INTERMEDIATE
  | LAYER_HIGH
  deriving Repr, DecidableEq

/-- Embedding of `Layer(layer - 1)`: the layer below. -/
def Layer.lower : Layer → Layer
  | .LAYER_LOW => .LAYER_LOW
  | .LAYER_INTERMEDIATE => .LAYER_LOW
  | .LAYER_HIGH => .LAYER_INTERMEDIATE

/-- The possible outcomes of `Hero::HookshotState::finish_movement`. -/
inductive HookshotFinishOutcome where
  /-- `hero.start_state_from_ground()` on the given layer. -/
  | startStateFromGround (layer : Layer)
  /-- play "hero_lands", `set_entity_layer(hero, layer - 1)`,
  then `start_state_from_ground()`. -/
  | descendAndStart (layer : Layer)
  /-- play "hero_hurt", `set_state(new BackToSolidGroundState(...))`. -/
  | backToSolidGround
  deriving Repr, DecidableEq

/-- Embedding of `Hero::HookshotState::finish_movement` (src/hero/HookshotState.cpp,
lines 208-237).  `hasEmptyGround` abstracts
`map.has_empty_ground(layer, hero_position)` and `collidesBelow`
abstracts `map.test_collision_with_obstacles(layer - 1, hero_position,
hero)`. -/
def HookshotState.finish_movement (layer : Layer) (hasEmptyGround : Bool)
    (collidesBelow : Bool) : HookshotFinishOutcome :=
  if layer = .LAYER_LOW || !hasEmptyGround then
    .startStateFromGround layer
  else
    if !collidesBelow then
      .descendAndStart layer.lower
    else
      .backToSolidGround

/-! ## `Hero::BoomerangState` (src/hero/BoomerangState.cpp) -/

/-- Result of `Hero::BoomerangState::start`
(src/hero/BoomerangState.cpp, lines 63-75). -/
structure BoomerangStartResult where
  /-- `hero.set_state(new FreeState(hero))` was requested. -/
  wentToFree : Bool
  /-- `set_animation_boomerang(tunic_preparing_animation)` was called. -/
  preparingAnimationSet : Bool
  /-- The value of the `direction_pressed8` field afterwards
  (`-1` from the constructor when untouched). -/
  directionPressed8 : Int
  deriving Repr, DecidableEq

/-- Embedding of `Hero::BoomerangState::start` (src/hero/BoomerangState.cpp, lines
63-75): if `get_map().get_entities().is_boomerang_present()` the hero is
immediately sent back to `FreeState`; otherwise the preparing animation
is set and `direction_pressed8 = get_commands().get_wanted_direction8()`. -/
def BoomerangState.start (boomerangPresent : Bool)
    (wantedDirection8 : Int) : BoomerangStartResult :=
  if boomerangPresent then
    { wentToFree := true, preparingAnimationSet := false, directionPressed8 := -1 }
  else
    { wentToFree := false, preparingAnimationSet := true,
      directionPressed8 := wantedDirection8 }

/-- Result of `Hero::BoomerangState::update`
(src/hero/BoomerangState.cpp, lines 80-104). -/
structure BoomerangUpdateResult where
  /-- Number of `Boomerang` entities added by `add_entity`. -/
  boomerangsSpawned : Nat
  /-- The `boomerang_direction8` used for the spawned boomerang
  (meaningless when none is spawned). -/
  boomerangDirection8 : Int
  /-- The boomerang's angle in degrees (`boomerang_direction8 * 45`;
  the code converts it to radians with
  `Geometry::degrees_to_radians`). -/
  angleDegrees : Int
  /-- `hero.set_state(new FreeState(hero))` was requested. -/
  wentToFree : Bool
  deriving Repr, DecidableEq

/-- Embedding of `Hero::BoomerangState::update` (src/hero/BoomerangState.cpp, lines
80-104): when the animation is finished, a still-unset
`direction_pressed8` is re-read from the commands; then the boomerang
direction is `direction_pressed8` itself when it is an odd (diagonal)
direction, and `get_animation_direction() * 2` otherwise; one boomerang
is spawned at `boomerang_direction8 * 45` degrees and the hero goes back
to `FreeState`. -/
def BoomerangState.update (animationFinished : Bool)
    (directionPressed8 wantedDirection8 animationDirection : Int) :
    BoomerangUpdateResult :=
  if !animationFinished then
    { boomerangsSpawned := 0, boomerangDirection8 := 0,
      angleDegrees := 0, wentToFree := false }
  else
    let directionPressed8 :=
      if directionPressed8 = -1 then wantedDirection8 else directionPressed8
    let boomerangDirection8 :=
      if directionPressed8 = -1 || directionPressed8 % 2 = 0 then
        animationDirection * 2
      else
        directionPressed8
    { boomerangsSpawned := 1, boomerangDirection8 := boomerangDirection8,
      angleDegrees := boomerangDirection8 * 45, wentToFree := true }

/-! ## `Hero::JumpingState` predicates (src/hero/JumpingState.cpp) -/

namespace JumpingState

/-- Embedding of `Hero::JumpingState::can_avoid_deep_water` (lines 224-226). -/
def can_avoid_deep_water : Bool := true

/-- Embedding of `Hero::JumpingState::can_avoid_hole` (lines 232-234). -/
def can_avoid_hole : Bool := true

/-- Embedding of `Hero::JumpingState::can_avoid_ice` (lines 240-242). -/
def can_avoid_ice : Bool := true

/-- Embedding of `Hero::JumpingState::can_avoid_lava` (lines 248-250). -/
def can_avoid_lava : Bool := true

/-- Embedding of `Hero::JumpingState::can_avoid_prickle` (lines 256-258). -/
def can_avoid_prickle : Bool := true

/-- Embedding of `Hero::JumpingState::can_avoid_teletransporter` (lines 264-266). -/
def can_avoid_teletransporter : Bool := true

/-- Embedding of `Hero::JumpingState::can_avoid_sensor` (lines 307-309): `return false;`. -/
def can_avoid_sensor : Bool := false

/-- Embedding of `Hero::JumpingState::is_sensor_obstacle` (lines 290-293): `return false;`. -/
def is_sensor_obstacle : Bool := false

/-- Embedding of `Hero::JumpingState::can_avoid_switch` (lines 315-317). -/
def can_avoid_switch : Bool := true

/-- Embedding of `Hero::JumpingState::can_be_hurt` (lines 325-327): `return false;`
for every attacker (the attacker argument is ignored; `none` models the
C++ `NULL` attacker). -/
def can_be_hurt (_attacker : Option Nat) : Bool := false

end JumpingState

/-! ## `Pickable` sprite initialization and treasure giving
(src/entities/Pickable.cpp) -/

/-- Outcome of the variant-to-direction computation inside
`Pickable::initialize_sprites`. -/
structure SpriteDirectionResult where
  /-- The direction finally passed to `set_current_direction`. -/
  direction : Int
  /-- `Debug::error` was called with the anomaly message. -/
  errorLogged : Bool
  deriving Repr, DecidableEq

/-- The direction selection of `Pickable::initialize_sprites`
(src/entities/Pickable.cpp, lines 174-185): `direction =
treasure.get_variant() - 1`; when `direction < 0 || direction >=
item_sprite.get_nb_directions()` an error is logged via `Debug::error`
and `direction = 0` is used as fallback; execution continues either
way. -/
def Pickable.initialize_sprites_direction (variant : Int)
    (nbDirections : Int) : SpriteDirectionResult :=
  let direction := variant - 1
  if direction < 0 || direction ≥ nbDirections then
    { direction := 0, errorLogged := true }
  else
    { direction := direction, errorLogged := false }

/-- The pick-timer initialization of `Pickable::initialize_sprites`
(src/entities/Pickable.cpp, lines 192-200): when the item falls
(`falling_height != FALLING_NONE`), `allow_pick_date = now + 700` and
`can_be_picked = false`; otherwise `can_be_picked = true`.  Returns
`(can_be_picked, allow_pick_date)`, the latter keeping its previous
value when not falling. -/
def Pickable.initialize_sprites_pick_timer (falling : Bool) (now : Nat)
    (allowPickDate : Nat) : Bool × Nat :=
  if falling then (false, uadd (now % U32MOD) 700)
  else (true, allowPickDate)

/-- The fields of `Pickable` read and written by
`Pickable::try_give_item_to_player`. -/
structure PickableGiveState where
  canBePicked : Bool
  givenToPlayer : Bool
  removedFromMap : Bool
  deriving Repr, DecidableEq

/-- The external conditions `Pickable::try_give_item_to_player`
consults. -/
structure GiveContext where
  /-- `get_game().is_dialog_enabled()`. -/
  dialogEnabled : Bool
  /-- `get_hero().can_pick_treasure(item)` for this treasure's item. -/
  heroCanPickTreasure : Bool
  deriving Repr, DecidableEq

/-- Embedding of `Pickable::try_give_item_to_player` (src/entities/Pickable.cpp,
lines 327-361): returns unchanged (and gives nothing) when the item
cannot be picked yet, was already given, a dialog is enabled, or the
hero's state refuses the treasure; otherwise sets `given_to_player`,
removes the entity from the map and gives the treasure.  The second
component reports whether the treasure was given by this call. -/
def Pickable.try_give_item_to_player (ctx : GiveContext)
    (p : PickableGiveState) : PickableGiveState × Bool :=
  if !p.canBePicked
      || p.givenToPlayer
      || ctx.dialogEnabled
      || !ctx.heroCanPickTreasure then
    (p, false)
  else
    ({ p with givenToPlayer := true, removedFromMap := true }, true)

/-! ## Round-trip experiments used by the suspension claims -/

/-- One suspend/resume round trip on a pickable's timers: the game is
suspended at simulated time `t` and resumed at time `t + D`. -/
def pickableSuspendResume (t D : Nat) (p : PickableTimers) : PickableTimers :=
  Pickable.set_suspended (t + D) false (Pickable.set_suspended t true p)

/-- One suspend/resume round trip on a pixel movement: suspended at
simulated time `t`, resumed at time `t + D`. -/
def pixelSuspendResume (t D : Nat) (m : PixelMovementTimers) : PixelMovementTimers :=
  PixelMovement.set_suspended (t + D) false (PixelMovement.set_suspended t true m)

/-- Timers of a freshly created falling, disappearing pickable
(allow-pick 700 ms, blink 8000 ms, disappear 10000 ms after time 0),
never suspended before. -/
def pickableTimersExample : PickableTimers :=
  { canBePicked := false, willDisappear := true, allowPickDate := 700,
    blinkDate := 8000, disappearDate := 10000, suspended := false,
    whenSuspended := 0 }

/-! ## Helper lemmas about the wrapping arithmetic -/

lemma uadd_usub_shift (a t D : Nat) :
    uadd ((t + D) % U32MOD) (usub a t) = (a + D) % U32MOD := by
  simp only [uadd, usub, U32MOD]
  omega

lemma usub_elapsed (t D : Nat) :
    usub ((t + D) % U32MOD) t = D % U32MOD := by
  simp only [usub, U32MOD]
  omega

lemma uadd_mod_right (a D : Nat) : uadd a (D % U32MOD) = (a + D) % U32MOD := by
  simp only [uadd, U32MOD]
  omega

lemma pickableSuspendResume_allowPickDate (t D : Nat) (p : PickableTimers)
    (hpick : p.canBePicked = false) (hw : t % U32MOD ≠ 0) :
    (pickableSuspendResume t D p).allowPickDate =
      uadd ((t + D) % U32MOD) (usub p.allowPickDate (t % U32MOD)) := by
  obtain ⟨cbp, wdis, apd, bd, dd, su, ws⟩ := p
  simp only at hpick
  subst hpick
  cases wdis <;>
    simp [pickableSuspendResume, Pickable.set_suspended, mapEntitySetSuspended, hw]

lemma pickableSuspendResume_blinkDate (t D : Nat) (p : PickableTimers)
    (hdis : p.willDisappear = true) (hw : t % U32MOD ≠ 0) :
    (pickableSuspendResume t D p).blinkDate =
      uadd ((t + D) % U32MOD) (usub p.blinkDate (t % U32MOD)) := by
  obtain ⟨cbp, wdis, apd, bd, dd, su, ws⟩ := p
  simp only at hdis
  subst hdis
  cases cbp <;>
    simp [pickableSuspendResume, Pickable.set_suspended, mapEntitySetSuspended, hw]

lemma pickableSuspendResume_disappearDate (t D : Nat) (p : PickableTimers)
    (hdis : p.willDisappear = true) (hw : t % U32MOD ≠ 0) :
    (pickableSuspendResume t D p).disappearDate =
      uadd ((t + D) % U32MOD) (usub p.disappearDate (t % U32MOD)) := by
  obtain ⟨cbp, wdis, apd, bd, dd, su, ws⟩ := p
  simp only at hdis
  subst hdis
  cases cbp <;>
    simp [pickableSuspendResume, Pickable.set_suspended, mapEntitySetSuspended, hw]

lemma pixelSuspendResume_nextMoveDate (t D : Nat) (m : PixelMovementTimers)
    (hw : t % U32MOD ≠ 0) :
    (pixelSuspendResume t D m).nextMoveDate =
      uadd m.nextMoveDate (usub ((t + D) % U32MOD) (t % U32MOD)) := by
  obtain ⟨nmd, msu, mws⟩ := m
  simp [pixelSuspendResume, PixelMovement.set_suspended, movementSetSuspended, hw]

/-! ## Claims -/

/-- Claim C1, as stated, is false at suspension time `t = 0`: both
`Pickable::set_suspended` and `PixelMovement::set_suspended` skip the
shift when `get_when_suspended() == 0`, the sentinel for "never
suspended".  A falling pickable (`allow_pick_date = 700`) suspended at
simulated time 0 and resumed at time 100 keeps `allow_pick_date = 700`
instead of the claimed `700 + 100`; a pixel movement with
`next_move_date = 520` likewise keeps `520` instead of `620`. -/
theorem C1_counterexample_suspend_at_time_zero :
    (pickableSuspendResume 0 100 pickableTimersExample).allowPickDate = 700
    ∧ (700 : Nat) + 100 ≠ 700
    ∧ (pixelSuspendResume 0 100 ⟨520, false, 0⟩).nextMoveDate = 520
    ∧ (520 : Nat) + 100 ≠ 520 := by
  decide

/-- Claim C1 (amended): for every suspension time `t ≠ 0` (0 being the
code's "never suspended" sentinel) with `t < 2^32`, suspending a
pickable with live timers (`can_be_picked` false, `will_disappear`
true) and a pixel movement at time `t` and resuming at time `t + D`
shifts `allow_pick_date`, `blink_date`, `disappear_date` and
`next_move_date` forward by exactly `D`, modulo `2^32`, for every
`D ≥ 0` including `D = 0`. -/
theorem C1_suspend_resume_shifts_dates
    (p : PickableTimers) (m : PixelMovementTimers) (t D : Nat)
    (ht0 : t ≠ 0) (htM : t < U32MOD)
    (hpick : p.canBePicked = false) (hdis : p.willDisappear = true) :
    (pickableSuspendResume t D p).allowPickDate = (p.allowPickDate + D) % U32MOD
    ∧ (pickableSuspendResume t D p).blinkDate = (p.blinkDate + D) % U32MOD
    ∧ (pickableSuspendResume t D p).disappearDate = (p.disappearDate + D) % U32MOD
    ∧ (pixelSuspendResume t D m).nextMoveDate = (m.nextMoveDate + D) % U32MOD := by
  have ht' : t % U32MOD = t := Nat.mod_eq_of_lt htM
  have hw : t % U32MOD ≠ 0 := by rw [ht']; exact ht0
  refine ⟨?_, ?_, ?_, ?_⟩
  · rw [pickableSuspendResume_allowPickDate t D p hpick hw, ht']
    exact uadd_usub_shift _ _ _
  · rw [pickableSuspendResume_blinkDate t D p hdis hw, ht']
    exact uadd_usub_shift _ _ _
  · rw [pickableSuspendResume_disappearDate t D p hdis hw, ht']
    exact uadd_usub_shift _ _ _
  · rw [pixelSuspendResume_nextMoveDate t D m hw, ht',
      usub_elapsed, uadd_mod_right]

/-- Claim C1 witness: the amended round-trip property evaluated on the
example pickable and a pixel movement suspended at time 500 for 100 ms. -/
theorem C1_suspend_resume_shifts_dates_witness :
    (pickableSuspendResume 500 100 pickableTimersExample).allowPickDate =
      (pickableTimersExample.allowPickDate + 100) % U32MOD
    ∧ (pickableSuspendResume 500 100 pickableTimersExample).blinkDate =
      (pickableTimersExample.blinkDate + 100) % U32MOD
    ∧ (pickableSuspendResume 500 100 pickableTimersExample).disappearDate =
      (pickableTimersExample.disappearDate + 100) % U32MOD
    ∧ (pixelSuspendResume 500 100 ⟨520, false, 0⟩).nextMoveDate =
      ((520 : Nat) + 100) % U32MOD :=
  C1_suspend_resume_shifts_dates pickableTimersExample ⟨520, false, 0⟩ 500 100
    (by decide) (by decide) rfl rfl

/-- Claim C2, as stated, is false: with the outgoing state holding its
single reference, "exactly one new holder" means a reference count of 2
at `stop()` time, but the code only asserts `get_refcount() > 1`.  A
count of 3 — two new holders, violating the claimed exact count — passes
the assertion and `stop()` continues silently instead of aborting. -/
theorem C2_counterexample_two_new_holders_pass :
    LiftingState.stop .BEHAVIOR_KEEP ⟨3, true, false⟩ = .ok ⟨2, false, false⟩
    ∧ JumpingState.stop .BEHAVIOR_KEEP ⟨3, true, false⟩ = .ok ⟨2, false, false⟩
    ∧ (3 : Nat) ≠ 2 :=
  ⟨rfl, rfl, by decide⟩

/-- Claim C2 (amended): when a state holding a carried item stops with
next-state policy KEEP, `stop()` verifies that the reference count shows
at least one holder besides itself (`get_refcount() > 1`, not exactly
one new holder), then releases its own reference (count decremented by
one, pointer cleared); a count of 1 or less is a fatal assertion
(`Debug::check_assertion`), not silent continuation — in both
`Hero::LiftingState::stop` and `Hero::JumpingState::stop`. -/
theorem C2_keep_policy_assertion (w : CarriedItemWorld)
    (h : w.stateHolds = true) :
    (w.refcount ≤ 1 →
      LiftingState.stop .BEHAVIOR_KEEP w = .error "Invalid carried item refcount"
      ∧ JumpingState.stop .BEHAVIOR_KEEP w = .error "Invalid carried item refcount")
    ∧ (1 < w.refcount →
      LiftingState.stop .BEHAVIOR_KEEP w =
        .ok { w with refcount := w.refcount - 1, stateHolds := false }
      ∧ JumpingState.stop .BEHAVIOR_KEEP w =
        .ok { w with refcount := w.refcount - 1, stateHolds := false }) := by
  obtain ⟨c, sh, iw⟩ := w
  simp only at h
  subst h
  constructor
  · intro hc
    simp only at hc
    have hc' : ¬(1 < c) := by omega
    simp [LiftingState.stop, JumpingState.stop, hc']
  · intro hc
    simp only at hc
    simp [LiftingState.stop, JumpingState.stop, refCountableUnref, hc]

/-- Claim C2 witness: the amended statement evaluated at reference
counts 1 (fatal) and 2 (successful release to count 1). -/
theorem C2_keep_policy_assertion_witness :
    (LiftingState.stop .BEHAVIOR_KEEP ⟨1, true, false⟩ =
        .error "Invalid carried item refcount"
      ∧ JumpingState.stop .BEHAVIOR_KEEP ⟨1, true, false⟩ =
        .error "Invalid carried item refcount")
    ∧ (LiftingState.stop .BEHAVIOR_KEEP ⟨2, true, false⟩ = .ok ⟨1, false, false⟩
      ∧ JumpingState.stop .BEHAVIOR_KEEP ⟨2, true, false⟩ = .ok ⟨1, false, false⟩) :=
  ⟨(C2_keep_policy_assertion ⟨1, true, false⟩ rfl).1 (by decide),
   (C2_keep_policy_assertion ⟨2, true, false⟩ rfl).2 (by decide)⟩

/-- Claim C3: lifting an object `O` of reference count 1 raises the
count to 2 (`LiftingState` constructor refs it); stopping the state with
successor policy THROW throws `O` into the world entity list, leaves no
hero state referencing it, and returns its count to 1 with the world as
single holder. -/
theorem C3_lift_then_throw :
    LiftingState.construct ⟨1, false, false⟩ = ⟨2, true, false⟩
    ∧ LiftingState.stop .BEHAVIOR_THROW (LiftingState.construct ⟨1, false, false⟩) =
        .ok ⟨1, false, true⟩ :=
  ⟨rfl, rfl⟩

/-- Claim C4: when the hookshot movement finishes with the hero partly
over empty ground on a layer above the lowest, the recovery is the
deterministic fallback of `finish_movement`: descend one layer when the
position is not an obstacle on the layer below, otherwise transition to
`BackToSolidGroundState`; in every case the result is one of the three
recovery outcomes, never a hard error. -/
theorem C4_hookshot_landing_fallback (layer : Layer) (collidesBelow : Bool)
    (h : layer ≠ .LAYER_LOW) :
    HookshotState.finish_movement layer true collidesBelow =
      (if collidesBelow then .backToSolidGround
       else .descendAndStart layer.lower) := by
  cases layer with
  | LAYER_LOW => exact absurd rfl h
  | LAYER_INTERMEDIATE => cases collidesBelow <;> rfl
  | LAYER_HIGH => cases collidesBelow <;> rfl

/-- Claim C4 witness: the fallback evaluated on the intermediate layer
with and without an obstacle below. -/
theorem C4_hookshot_landing_fallback_witness :
    HookshotState.finish_movement .LAYER_INTERMEDIATE true true =
      .backToSolidGround
    ∧ HookshotState.finish_movement .LAYER_INTERMEDIATE true false =
      .descendAndStart .LAYER_LOW :=
  ⟨C4_hookshot_landing_fallback .LAYER_INTERMEDIATE true (by decide),
   C4_hookshot_landing_fallback .LAYER_INTERMEDIATE false (by decide)⟩

/-- Claim C5: when `BoomerangState` starts while a boomerang is already
on the map, it immediately requests a transition back to Free without
setting the preparing animation or recording a pressed direction
(`direction_pressed8` keeps its constructor value `-1`); otherwise it
sets the preparing animation and records the pressed 8-direction. -/
theorem C5_boomerang_start_abort_or_prepare (wantedDirection8 : Int) :
    BoomerangState.start true wantedDirection8 =
      { wentToFree := true, preparingAnimationSet := false,
        directionPressed8 := -1 }
    ∧ BoomerangState.start false wantedDirection8 =
      { wentToFree := false, preparingAnimationSet := true,
        directionPressed8 := wantedDirection8 } :=
  ⟨rfl, rfl⟩

/-- Claim C6, as stated, is false: the code falls back to the hero's
facing direction not only when no direction was pressed, but also
whenever the pressed direction is even (a cardinal direction).  With
recorded pressed direction 0 (east) and facing animation direction 1
(north), the boomerang is thrown with direction `1 * 2 = 2`, not the
pressed direction 0. -/
theorem C6_counterexample_cardinal_press_ignored :
    (BoomerangState.update true 0 (-1) 1).boomerangDirection8 = 2
    ∧ (2 : Int) ≠ 0
    ∧ (BoomerangState.update true 0 (-1) 1).boomerangsSpawned = 1
    ∧ (BoomerangState.update true 0 (-1) 1).wentToFree = true := by
  decide

/-- Claim C6 (amended): when the preparing animation finishes, a still
unset pressed direction is re-read from the commands; the throw
direction is the pressed 8-direction only when it is a diagonal (odd)
direction, and twice the hero's 4-direction facing otherwise (no press,
or a cardinal press); exactly one boomerang is spawned at 45 degrees
times that direction and the hero transitions to Free. -/
theorem C6_boomerang_throw_resolution (dp wd ad : Int) :
    (BoomerangState.update true dp wd ad).boomerangsSpawned = 1
    ∧ (BoomerangState.update true dp wd ad).wentToFree = true
    ∧ (BoomerangState.update true dp wd ad).angleDegrees =
        (BoomerangState.update true dp wd ad).boomerangDirection8 * 45
    ∧ (dp ≠ -1 → dp % 2 ≠ 0 →
        (BoomerangState.update true dp wd ad).boomerangDirection8 = dp)
    ∧ (dp ≠ -1 → dp % 2 = 0 →
        (BoomerangState.update true dp wd ad).boomerangDirection8 = ad * 2)
    ∧ (dp = -1 → wd ≠ -1 → wd % 2 ≠ 0 →
        (BoomerangState.update true dp wd ad).boomerangDirection8 = wd)
    ∧ (dp = -1 → wd ≠ -1 → wd % 2 = 0 →
        (BoomerangState.update true dp wd ad).boomerangDirection8 = ad * 2)
    ∧ (dp = -1 → wd = -1 →
        (BoomerangState.update true dp wd ad).boomerangDirection8 = ad * 2)
    ∧ (BoomerangState.update false dp wd ad).boomerangsSpawned = 0 := by
  refine ⟨?_, ?_, ?_, ?_, ?_, ?_, ?_, ?_, ?_⟩ <;>
    simp only [BoomerangState.update, Bool.not_true, Bool.not_false,
      if_false, if_true, ite_true, ite_false, Bool.false_eq_true,
      reduceIte]
  · intro h1 h2
    simp [h1, h2]
  · intro h1 h2
    simp [h1, h2]
  · intro h1 h2 h3
    simp [h1, h2, h3]
  · intro h1 h2 h3
    simp [h1, h2, h3]
  · intro h1 h2
    simp [h1, h2]

/-- Claim C6 witness: a diagonal press (direction 3) is used as the
throw direction, with one boomerang spawned at `3 * 45` degrees. -/
theorem C6_boomerang_throw_resolution_witness :
    (BoomerangState.update true 3 (-1) 1).boomerangsSpawned = 1
    ∧ (BoomerangState.update true 3 (-1) 1).boomerangDirection8 = 3 :=
  ⟨(C6_boomerang_throw_resolution 3 (-1) 1).1,
   (C6_boomerang_throw_resolution 3 (-1) 1).2.2.2.1 (by decide) (by decide)⟩

/-- Claim C7, as stated, is false on the sensor clause: in the Jumping
state `can_avoid_sensor()` returns `false` (sensors are not avoided
while airborne), contradicting "sensors are avoided while airborne". -/
theorem C7_counterexample_sensor_not_avoided :
    JumpingState.can_avoid_sensor = false
    ∧ JumpingState.can_avoid_sensor ≠ true := by
  decide

/-- Claim C7 (amended): in the Jumping state the hazard-avoidance
predicates for deep water, hole, ice, lava, prickles, teletransporters
(and switches) all return true, sensors are **not** avoided
(`can_avoid_sensor` is false, although sensors are not obstacles
either), and `can_be_hurt` returns false for every attacker. -/
theorem C7_jumping_predicates :
    JumpingState.can_avoid_deep_water = true
    ∧ JumpingState.can_avoid_hole = true
    ∧ JumpingState.can_avoid_ice = true
    ∧ JumpingState.can_avoid_lava = true
    ∧ JumpingState.can_avoid_prickle = true
    ∧ JumpingState.can_avoid_teletransporter = true
    ∧ JumpingState.can_avoid_switch = true
    ∧ JumpingState.can_avoid_sensor = false
    ∧ JumpingState.is_sensor_obstacle = false
    ∧ ∀ attacker, JumpingState.can_be_hurt attacker = false :=
  ⟨rfl, rfl, rfl, rfl, rfl, rfl, rfl, rfl, rfl, fun _ => rfl⟩

/-- Claim C8: when a pickable treasure's variant has no corresponding
sprite orientation (`variant - 1` negative or not below the sprite's
number of directions), `initialize_sprites` logs the anomaly
(`Debug::error`) and falls back to direction 0, continuing without
failing. -/
theorem C8_variant_fallback (variant nbDirections : Int)
    (h : variant - 1 < 0 ∨ variant - 1 ≥ nbDirections) :
    Pickable.initialize_sprites_direction variant nbDirections =
      { direction := 0, errorLogged := true } := by
  unfold Pickable.initialize_sprites_direction
  rcases h with h | h <;> simp [h]

/-- Claim C8 witness: variant 5 with a 3-direction sprite falls back to
direction 0 and logs the anomaly. -/
theorem C8_variant_fallback_witness :
    Pickable.initialize_sprites_direction 5 3 =
      { direction := 0, errorLogged := true } :=
  C8_variant_fallback 5 3 (by decide)

/-- Claim C9: every `System::update()` adds exactly the constant
timestep of 10 ms to the simulated clock, so after `n` updates
`System::now()` equals `10 * n` modulo `2^32`, independently of real
elapsed time (which the function never reads). -/
theorem C9_fixed_timestep_clock (n : Nat) :
    System.nowAfter n = (10 * n) % U32MOD := by
  induction n with
  | zero => rfl
  | succ k ih =>
      show System.update (System.nowAfter k) = _
      rw [ih]
      simp only [System.update, System.timestep, U32MOD]
      omega

/-- Claim C10: `try_give_item_to_player` is a no-op whenever the item
cannot yet be picked, was already given, a dialog is enabled, or the
hero's state refuses the treasure; a successful call sets the
given-to-player flag and removes the entity, after which any further
call gives nothing — the treasure is given at most once.  Moreover a
falling pickable starts with `can_be_picked` false (until its
allow-pick date). -/
theorem C10_treasure_given_at_most_once (ctx ctx2 : GiveContext)
    (p : PickableGiveState) :
    ((p.canBePicked = false ∨ p.givenToPlayer = true
        ∨ ctx.dialogEnabled = true ∨ ctx.heroCanPickTreasure = false) →
      Pickable.try_give_item_to_player ctx p = (p, false))
    ∧ ((Pickable.try_give_item_to_player ctx p).2 = true →
        (Pickable.try_give_item_to_player ctx p).1.givenToPlayer = true
        ∧ (Pickable.try_give_item_to_player ctx p).1.removedFromMap = true
        ∧ (Pickable.try_give_item_to_player ctx2
            (Pickable.try_give_item_to_player ctx p).1).2 = false)
    ∧ (∀ now apd, (Pickable.initialize_sprites_pick_timer true now apd).1 = false) := by
  obtain ⟨de, hp⟩ := ctx
  obtain ⟨de2, hp2⟩ := ctx2
  obtain ⟨cbp, gtp, rfm⟩ := p
  refine ⟨?_, ?_, fun now apd => rfl⟩
  · intro h
    cases cbp <;> cases gtp <;> cases de <;> cases hp <;>
      simp_all [Pickable.try_give_item_to_player]
  · intro h
    cases cbp <;> cases gtp <;> cases de <;> cases hp <;>
      simp_all [Pickable.try_give_item_to_player]

/-- Claim C10 witness: an already-given pickable is untouched by a
further call; a fresh pickable is given once, removed, and a repeated
call gives nothing. -/
theorem C10_treasure_given_at_most_once_witness :
    Pickable.try_give_item_to_player ⟨false, true⟩ ⟨true, true, false⟩ =
      (⟨true, true, false⟩, false)
    ∧ ((Pickable.try_give_item_to_player ⟨false, true⟩ ⟨true, false, false⟩).1.givenToPlayer = true
      ∧ (Pickable.try_give_item_to_player ⟨false, true⟩ ⟨true, false, false⟩).1.removedFromMap = true
      ∧ (Pickable.try_give_item_to_player ⟨false, true⟩
          (Pickable.try_give_item_to_player ⟨false, true⟩ ⟨true, false, false⟩).1).2 = false) :=
  ⟨(C10_treasure_given_at_most_once ⟨false, true⟩ ⟨false, true⟩ ⟨true, true, false⟩).1
      (Or.inr (Or.inl rfl)),
   (C10_treasure_given_at_most_once ⟨false, true⟩ ⟨false, true⟩ ⟨true, false, false⟩).2.1 rfl⟩

end Solarus
